import Mathlib

/-!
Shallow embedding of the session/transcript core of the vibesOnly server
(src/server.js, src/db.js): the persistent store (sessions,
transcript_messages, analyses tables), the transcript operations
(createSession, getSession, replaceTranscript), the asynchronous analysis
pipeline (analyze endpoint, runAnalysis with its JSON-parse fallback and
upsert), and the admin bearer-token guard (requireAdminAuth).

External collaborators (the language-model service and the JSON parser)
are parameters of the functions that call them.
-/

namespace VibesOnly

/-- Scenario loaded from the static catalog (data/scenarios); only the
fields the core reads are modelled. -/
structure Scenario where
  initialMessage : String
deriving Repr, DecidableEq

/-- Incoming transcript message as found in a request body: `none` in a
field models a missing or non-string value (the `typeof` checks in
server.js:302). -/
structure RawMsg where
  role : Option String
  content : Option String
deriving Repr, DecidableEq

/-- Stored conversational message (role and content strings). -/
structure Message where
  role : String
  content : String
deriving Repr, DecidableEq

/-- Row of the sessions table: id, scenario_id, created_at. -/
structure SessionRow where
  id : String
  scenario_id : String
  created_at : Nat
deriving Repr, DecidableEq

/-- Row of the transcript_messages table. -/
structure TMsg where
  session_id : String
  role : String
  content : String
  position : Nat
deriving Repr, DecidableEq

/-- Value stored in the analyses.result column: either the structured
payload obtained from a successful JSON.parse (held opaquely), or the
fallback object `\x7b rawAnalysis: ... \x7d` built in server.js:459. -/
inductive AnalysisResult where
  | parsed (v : String)
  | fallback (rawAnalysis : String)
deriving Repr, DecidableEq

/-- Row of the analyses table; session_id carries a uniqueness
constraint, maintained by the upsert. -/
structure AnalysisRow where
  session_id : String
  result : AnalysisResult
deriving Repr, DecidableEq

/-- The persistent store: the three tables used by the core. -/
structure DB where
  sessions : List SessionRow
  transcript_messages : List TMsg
  analyses : List AnalysisRow
deriving Repr, DecidableEq

/-- An HTTP error response: status code and error string. -/
structure ErrResp where
  status : Nat
  error : String
deriving Repr, DecidableEq

/-- Character class of the scenario-id allow-list regex
`^[a-zA-Z0-9_-]+$` (server.js:210). -/
def isScenarioIdChar (c : Char) : Bool :=
  c.isAlphanum || c == '_' || c == '-'

/-- The scenario-id validation of server.js:210: non-empty and matching
the allow-list regex (the falsiness and typeof checks are subsumed for a
typed string by non-emptiness). -/
def validScenarioId (s : String) : Bool :=
  !s.isEmpty && s.toList.all isScenarioIdChar

/-- The `SELECT id FROM sessions WHERE id = $1` existence check used by
the replace-transcript and analyze handlers. -/
def sessionExists (sid : String) (db : DB) : Bool :=
  db.sessions.any (fun s => s.id == sid)

/-- Response body of POST /api/sessions. -/
structure CreateResp where
  sessionId : String
  scenario : Scenario
  transcript : List Message
deriving Repr, DecidableEq

/-- POST /api/sessions (server.js:207-252). `catalog` models the scenario
files on disk, `freshId` the crypto.randomUUID() result, `now` the row's
created_at. On success the session row and its position-0 opening message
are added in one transaction (a single state update here). -/
def createSession (catalog : String → Option Scenario) (freshId : String)
    (now : Nat) (scenarioId : String) (db : DB) :
    Except ErrResp CreateResp × DB :=
  if !validScenarioId scenarioId then
    (Except.error ⟨400, "Invalid scenario ID"⟩, db)
  else
    match catalog scenarioId with
    | none => (Except.error ⟨404, "Scenario not found"⟩, db)
    | some scenario =>
      (Except.ok ⟨freshId, scenario, [⟨"assistant", scenario.initialMessage⟩]⟩,
       { db with
         sessions := db.sessions ++ [⟨freshId, scenarioId, now⟩],
         transcript_messages :=
           db.transcript_messages ++ [⟨freshId, "assistant", scenario.initialMessage, 0⟩] })

/-- Insertion step of the ORDER BY position sort. -/
def insertByPos (m : TMsg) : List TMsg → List TMsg
  | [] => [m]
  | x :: xs =>
    if m.position ≤ x.position then m :: x :: xs
    else x :: insertByPos m xs

/-- Sorting by position ascending, modelling the `ORDER BY position`
clause of the transcript queries. -/
def sortByPos : List TMsg → List TMsg
  | [] => []
  | x :: xs => insertByPos x (sortByPos xs)

/-- The transcript query `SELECT ... FROM transcript_messages WHERE
session_id = $1 ORDER BY position` (server.js:265-268, 406-409). -/
def sessionMsgs (sid : String) (db : DB) : List TMsg :=
  sortByPos (db.transcript_messages.filter (fun t => t.session_id == sid))

/-- Projection of a transcript row to the role/content pair returned to
clients and fed to the analysis prompt. -/
def rowToMessage (t : TMsg) : Message :=
  ⟨t.role, t.content⟩

/-- The `SELECT result FROM analyses WHERE session_id = $1` lookup. -/
def findAnalysis (sid : String) (db : DB) : Option AnalysisResult :=
  (db.analyses.find? (fun r => r.session_id == sid)).map (fun r => r.result)

/-- Response body of GET /api/sessions/:id. -/
structure GetSessionResp where
  transcript : List Message
  analysis : Option AnalysisResult
  created_at : Nat
deriving Repr, DecidableEq

/-- GET /api/sessions/:id (server.js:254-283): 404 if the session row is
absent, else the transcript ordered by position, the analysis or null,
and the creation time. -/
def getSession (sid : String) (db : DB) : Except ErrResp GetSessionResp :=
  match db.sessions.find? (fun s => s.id == sid) with
  | none => Except.error ⟨404, "Session not found"⟩
  | some srow =>
    Except.ok ⟨(sessionMsgs sid db).map rowToMessage, findAnalysis sid db, srow.created_at⟩

/-- The transcript component of GET /api/sessions/:id. -/
def getTranscript (sid : String) (db : DB) : Except ErrResp (List Message) :=
  match getSession sid db with
  | Except.error e => Except.error e
  | Except.ok r => Except.ok r.transcript

/-- The per-message validation loop of PUT /api/sessions/:id/transcript
(server.js:301-308): each message must have string role and content
(the Option fields), and role must be "user" or "assistant"; returns the
first failing message's 400 response. -/
def validateMessages : List RawMsg → Option ErrResp
  | [] => none
  | m :: rest =>
    match m.role, m.content with
    | some r, some _ =>
      if r == "user" || r == "assistant" then validateMessages rest
      else some ⟨400, "role must be \"user\" or \"assistant\""⟩
    | _, _ => some ⟨400, "Each message must have role and content strings"⟩

/-- Extraction of the validated string fields of a message (applied only
after validation has passed). -/
def toMessage (m : RawMsg) : Message :=
  ⟨m.role.getD "", m.content.getD ""⟩

/-- The insert loop of the replace-transcript transaction
(server.js:315-320): messages inserted with position = array index,
starting at `i`. -/
def insertMessages (sid : String) (ms : List Message) (i : Nat) : List TMsg :=
  match ms with
  | [] => []
  | m :: rest => ⟨sid, m.role, m.content, i⟩ :: insertMessages sid rest (i + 1)

/-- PUT /api/sessions/:id/transcript (server.js:285-334): 404 if the
session is absent, 400 on the first invalid message, else one
transactional delete of the session's rows followed by inserts with
position = array index. -/
def replaceTranscript (sid : String) (messages : List RawMsg) (db : DB) :
    Except ErrResp Unit × DB :=
  if !sessionExists sid db then (Except.error ⟨404, "Session not found"⟩, db)
  else
    match validateMessages messages with
    | some e => (Except.error e, db)
    | none =>
      (Except.ok (),
       { db with
         transcript_messages :=
           db.transcript_messages.filter (fun t => !(t.session_id == sid))
             ++ insertMessages sid (messages.map toMessage) 0 })

/-- The parse-or-fallback step of runAnalysis (server.js:453-460):
an absent or empty response text, or a failing parse, yields the
fallback record; the raw text is kept only when truthy (non-empty).
`parse` models JSON.parse, returning none when it throws. -/
def computeAnalysis (parse : String → Option String)
    (respText : Option String) : AnalysisResult :=
  match respText with
  | none => AnalysisResult.fallback "Analysis failed to parse"
  | some t =>
    if t == "" then AnalysisResult.fallback "Analysis failed to parse"
    else
      match parse t with
      | some v => AnalysisResult.parsed v
      | none => AnalysisResult.fallback t

/-- The `INSERT ... ON CONFLICT (session_id) DO UPDATE SET result = $2`
upsert (server.js:463-467): update the existing row for the session in
place if one exists, else append a new row. -/
def upsertAnalysis (sid : String) (res : AnalysisResult)
    (rows : List AnalysisRow) : List AnalysisRow :=
  if rows.any (fun r => r.session_id == sid) then
    rows.map (fun r => if r.session_id == sid then { r with result := res } else r)
  else
    rows ++ [⟨sid, res⟩]

/-- The background task runAnalysis (server.js:404-470): read the ordered
transcript, call the external model on it, parse or fall back, and upsert
the result. `model` is the external language-model call; when it fails
(`Except.error`), the task ends with nothing written. -/
def runAnalysis (parse : String → Option String)
    (model : List Message → Except Unit (Option String))
    (sid : String) (db : DB) : DB :=
  match model ((sessionMsgs sid db).map rowToMessage) with
  | Except.error _ => db
  | Except.ok respText =>
    { db with analyses := upsertAnalysis sid (computeAnalysis parse respText) db.analyses }

/-- POST /api/sessions/:id/analyze (server.js:379-402): 404 when the
session is unknown; otherwise the 202 "analyzing" acknowledgement is
fixed before the background task touches the store, and the task's
outcome is the second component. -/
def analyzeSession (parse : String → Option String)
    (model : List Message → Except Unit (Option String))
    (sid : String) (db : DB) : Except ErrResp String × DB :=
  if !sessionExists sid db then (Except.error ⟨404, "Session not found"⟩, db)
  else (Except.ok "analyzing", runAnalysis parse model sid db)

/-- Removal of the first occurrence of `pat` from a character list,
modelling the JS `String.prototype.replace` with a string pattern. -/
def removeFirstOcc (pat : List Char) : List Char → List Char
  | [] => []
  | c :: cs =>
    if pat.isPrefixOf (c :: cs) then List.drop pat.length (c :: cs)
    else c :: removeFirstOcc pat cs

/-- The header transformation `authorization.replace('Bearer ', '')`
of server.js:478. -/
def stripBearer (s : String) : String :=
  ⟨removeFirstOcc "Bearer ".toList s.toList⟩

/-- The admin auth middleware requireAdminAuth (server.js:473-483):
503 when ADMIN_TOKEN is unset or empty (falsy), 401 when the stripped
authorization header is absent or differs from the token, none (pass)
otherwise. -/
def requireAdminAuth (adminToken : Option String) (authHeader : Option String) :
    Option ErrResp :=
  match adminToken with
  | none => some ⟨503, "Admin access not configured"⟩
  | some tok =>
    if tok == "" then some ⟨503, "Admin access not configured"⟩
    else
      match authHeader with
      | none => some ⟨401, "Unauthorized"⟩
      | some h => if stripBearer h == tok then none else some ⟨401, "Unauthorized"⟩

/-- Entry of the admin session listing. -/
structure AdminSessionEntry where
  id : String
  created_at : Nat
  summary : String
deriving Repr, DecidableEq

/-- Truncation of the summary to 100 characters with an ellipsis
(server.js:493). -/
def truncateSummary (s : String) : String :=
  if s.length > 100 then ⟨s.toList.take 100⟩ ++ "..." else s

/-- The LATERAL subquery of the listing: first (lowest-position) message
with role user for the session, or the placeholder. -/
def summaryFor (sid : String) (db : DB) : String :=
  match ((sessionMsgs sid db).filter (fun t => t.role == "user")).head? with
  | some t => truncateSummary t.content
  | none => "No messages"

/-- Insertion step of the ORDER BY created_at DESC sort. -/
def insertByCreatedDesc (s : SessionRow) : List SessionRow → List SessionRow
  | [] => [s]
  | x :: xs =>
    if x.created_at ≤ s.created_at then s :: x :: xs
    else x :: insertByCreatedDesc s xs

/-- Sorting sessions newest first, modelling `ORDER BY created_at DESC`. -/
def sortByCreatedDesc : List SessionRow → List SessionRow
  | [] => []
  | x :: xs => insertByCreatedDesc x (sortByCreatedDesc xs)

/-- GET /api/admin/sessions (server.js:485-512): requireAdminAuth runs
first; on pass, all sessions newest first with derived summaries. -/
def adminSessions (adminToken : Option String) (authHeader : Option String)
    (db : DB) : Except ErrResp (List AdminSessionEntry) :=
  match requireAdminAuth adminToken authHeader with
  | some e => Except.error e
  | none =>
    Except.ok ((sortByCreatedDesc db.sessions).map
      (fun s => ⟨s.id, s.created_at, summaryFor s.id db⟩))

/-- The route GET /api/sessions/:id as registered (server.js:254): no
auth middleware is attached, so the handler runs regardless of the admin
token configuration or the authorization header. -/
def getSessionRoute (adminToken : Option String) (authHeader : Option String)
    (sid : String) (db : DB) : Except ErrResp GetSessionResp :=
  getSession sid db

/-- The acceptance condition of one message, as a boolean: string role
and content present, role in the allowed set. -/
def validMsg (m : RawMsg) : Bool :=
  match m.role, m.content with
  | some r, some _ => r == "user" || r == "assistant"
  | _, _ => false

/-- The text stored in the fallback record as a function of the model
response text: the raw text when it is a non-empty string, else the
placeholder (the JS `text || fallback` of server.js:459). -/
def fallbackText (respText : Option String) : String :=
  match respText with
  | some t => if t == "" then "Analysis failed to parse" else t
  | none => "Analysis failed to parse"

/-- Concrete one-scenario catalog used by the concrete instances below. -/
def catOne : String → Option Scenario :=
  fun s => if s == "conflict" then some ⟨"Hey, can we chat?"⟩ else none

/-- Concrete store with one session s1 holding its opening message, used
by the concrete instances below. -/
def dbOne : DB :=
  ⟨[⟨"s1", "conflict", 5⟩], [⟨"s1", "assistant", "Hey, can we chat?", 0⟩], []⟩

/-- Concrete store with two sessions and an analysis row for the second,
used by the concrete instances below. -/
def dbTwo : DB :=
  ⟨[⟨"s1", "conflict", 5⟩, ⟨"s2", "conflict", 7⟩],
   [⟨"s1", "assistant", "Hey, can we chat?", 0⟩, ⟨"s2", "assistant", "Hello.", 0⟩],
   [⟨"s2", AnalysisResult.parsed "prior"⟩]⟩

/-! ### Helper lemmas on the transcript operations -/

lemma mem_insertMessages_session_id (sid : String) (ms : List Message) (i : Nat) :
    ∀ t ∈ insertMessages sid ms i, t.session_id = sid := by
  induction ms generalizing i with
  | nil => intro t ht; simp [insertMessages] at ht
  | cons m rest ih =>
    intro t ht
    rw [insertMessages, List.mem_cons] at ht
    rcases ht with h | h
    · subst h; rfl
    · exact ih (i + 1) t h

lemma mem_insertMessages_pos (sid : String) (ms : List Message) (i : Nat) :
    ∀ t ∈ insertMessages sid ms i, i ≤ t.position := by
  induction ms generalizing i with
  | nil => intro t ht; simp [insertMessages] at ht
  | cons m rest ih =>
    intro t ht
    rw [insertMessages, List.mem_cons] at ht
    rcases ht with h | h
    · subst h; exact Nat.le_refl i
    · exact Nat.le_of_succ_le (ih (i + 1) t h)

lemma insertByPos_of_le (m : TMsg) (l : List TMsg)
    (h : ∀ y ∈ l, m.position ≤ y.position) : insertByPos m l = m :: l := by
  cases l with
  | nil => rfl
  | cons x xs => simp [insertByPos, h x (List.mem_cons_self x xs)]

lemma sortByPos_insertMessages (sid : String) (ms : List Message) (i : Nat) :
    sortByPos (insertMessages sid ms i) = insertMessages sid ms i := by
  induction ms generalizing i with
  | nil => rfl
  | cons m rest ih =>
    rw [insertMessages, sortByPos, ih (i + 1)]
    exact insertByPos_of_le _ _
      (fun y hy => Nat.le_of_succ_le (mem_insertMessages_pos sid rest (i + 1) y hy))

lemma filter_insertMessages_self (sid : String) (ms : List Message) (i : Nat) :
    (insertMessages sid ms i).filter (fun t => t.session_id == sid) =
      insertMessages sid ms i := by
  refine List.filter_eq_self.mpr (fun t ht => ?_)
  simp [mem_insertMessages_session_id sid ms i t ht]

lemma filter_not_filter (sid : String) (l : List TMsg) :
    (l.filter (fun t => !(t.session_id == sid))).filter
      (fun t => t.session_id == sid) = [] := by
  induction l with
  | nil => rfl
  | cons x xs ih =>
    by_cases h : x.session_id == sid
    · simp [List.filter, h, ih]
    · simp [List.filter, h, ih]

lemma map_rowToMessage_insertMessages (sid : String) (ms : List Message) (i : Nat) :
    (insertMessages sid ms i).map rowToMessage = ms := by
  induction ms generalizing i with
  | nil => rfl
  | cons m rest ih => simp [insertMessages, rowToMessage, ih (i + 1)]

lemma exists_find?_of_sessionExists (sid : String) (db : DB)
    (hex : sessionExists sid db = true) :
    ∃ srow, db.sessions.find? (fun s => s.id == sid) = some srow := by
  rw [sessionExists, List.any_eq_true] at hex
  exact Option.isSome_iff_exists.mp (List.find?_isSome.mpr hex)

lemma getSession_eq (sid : String) (db : DB) (srow : SessionRow)
    (hsrow : db.sessions.find? (fun s => s.id == sid) = some srow) :
    getSession sid db =
      Except.ok ⟨(sessionMsgs sid db).map rowToMessage, findAnalysis sid db,
        srow.created_at⟩ := by
  rw [getSession, hsrow]

lemma sessionMsgs_after_replace (sid : String) (messages : List RawMsg) (db : DB) :
    sessionMsgs sid
      { db with
        transcript_messages :=
          db.transcript_messages.filter (fun t => !(t.session_id == sid))
            ++ insertMessages sid (messages.map toMessage) 0 } =
      insertMessages sid (messages.map toMessage) 0 := by
  rw [sessionMsgs]
  rw [List.filter_append, filter_not_filter, filter_insertMessages_self,
    List.nil_append, sortByPos_insertMessages]

lemma validMsg_iff (m : RawMsg) :
    validMsg m = true ↔
      (m.role = some "user" ∨ m.role = some "assistant") ∧ m.content.isSome = true := by
  cases hr : m.role with
  | none => simp [validMsg, hr]
  | some r =>
    cases hc : m.content with
    | none => simp [validMsg, hr, hc]
    | some c => simp [validMsg, hr, hc]

lemma validateMessages_none_iff_all (ms : List RawMsg) :
    validateMessages ms = none ↔ ms.all validMsg = true := by
  induction ms with
  | nil => simp [validateMessages]
  | cons m rest ih =>
    cases hr : m.role with
    | none => simp [validateMessages, validMsg, hr]
    | some r =>
      cases hc : m.content with
      | none => simp [validateMessages, validMsg, hr, hc]
      | some c =>
        by_cases hok : (r == "user" || r == "assistant") = true
        · simp [validateMessages, validMsg, hr, hc, hok, ih]
        · simp [validateMessages, validMsg, hr, hc, hok]

lemma validateMessages_none_iff (ms : List RawMsg) :
    validateMessages ms = none ↔
      ∀ m ∈ ms, (m.role = some "user" ∨ m.role = some "assistant") ∧
        m.content.isSome = true := by
  rw [validateMessages_none_iff_all, List.all_eq_true]
  exact forall_congr' (fun m => forall_congr' (fun _ => validMsg_iff m))

lemma validateMessages_some_status (ms : List RawMsg) (e : ErrResp)
    (h : validateMessages ms = some e) : e.status = 400 := by
  induction ms with
  | nil => simp [validateMessages] at h
  | cons m rest ih =>
    rw [validateMessages] at h
    cases hr : m.role with
    | none =>
      rw [hr] at h
      cases hc : m.content with
      | none => rw [hc] at h; cases h; rfl
      | some c => rw [hc] at h; cases h; rfl
    | some r =>
      rw [hr] at h
      cases hc : m.content with
      | none => rw [hc] at h; cases h; rfl
      | some c =>
        rw [hc] at h
        by_cases hok : (r == "user" || r == "assistant") = true
        · simp only [hok, if_true] at h
          exact ih h
        · simp only [hok, if_false] at h
          cases h; rfl

lemma filter_insertMessages_ne (sidA sidB : String) (ms : List Message) (i : Nat)
    (hne : sidB ≠ sidA) :
    (insertMessages sidA ms i).filter (fun t => t.session_id == sidB) = [] := by
  induction ms generalizing i with
  | nil => rfl
  | cons m rest ih =>
    simp only [insertMessages, List.filter_cons]
    simp [Ne.symm hne, ih (i + 1)]

lemma filter_filter_ne (sidA sidB : String) (l : List TMsg) (hne : sidB ≠ sidA) :
    (l.filter (fun t => !(t.session_id == sidA))).filter
        (fun t => t.session_id == sidB) =
      l.filter (fun t => t.session_id == sidB) := by
  induction l with
  | nil => rfl
  | cons x xs ih =>
    by_cases hA : x.session_id = sidA
    · simp [List.filter_cons, hA, Ne.symm hne, ih]
    · simp [List.filter_cons, hA, ih]

/-! ### Claim theorems -/

/-- C1: for every session present in the store and every message list
passing validation, replaceTranscript succeeds and an immediate
getTranscript returns exactly the given messages, element for element
and in order (positions are array indices, read back ordered by
position ascending). -/
theorem replace_then_get_roundtrip (sid : String) (messages : List RawMsg) (db : DB)
    (hex : sessionExists sid db = true)
    (hval : validateMessages messages = none) :
    (replaceTranscript sid messages db).1 = Except.ok () ∧
    getTranscript sid (replaceTranscript sid messages db).2 =
      Except.ok (messages.map toMessage) := by
  obtain ⟨srow, hsrow⟩ := exists_find?_of_sessionExists sid db hex
  have hrepl1 : (replaceTranscript sid messages db).1 = Except.ok () := by
    rw [replaceTranscript, hex, hval]
    simp
  have hrepl2 : (replaceTranscript sid messages db).2 =
      { db with
        transcript_messages :=
          db.transcript_messages.filter (fun t => !(t.session_id == sid))
            ++ insertMessages sid (messages.map toMessage) 0 } := by
    rw [replaceTranscript, hex, hval]
    simp
  refine ⟨hrepl1, ?_⟩
  rw [hrepl2, getTranscript,
    getSession_eq sid
      { db with
        transcript_messages :=
          db.transcript_messages.filter (fun t => !(t.session_id == sid))
            ++ insertMessages sid (messages.map toMessage) 0 }
      srow hsrow]
  simp only [sessionMsgs_after_replace, map_rowToMessage_insertMessages]

/-- Witness for C1 at a concrete session and two-message list. -/
theorem replace_then_get_roundtrip_witness :
    (replaceTranscript "s1" [⟨some "user", some "hi"⟩, ⟨some "assistant", some "ok"⟩]
        ⟨[⟨"s1", "conflict", 5⟩], [⟨"s1", "assistant", "Hey, can we chat?", 0⟩], []⟩).1 =
      Except.ok () ∧
    getTranscript "s1"
        (replaceTranscript "s1" [⟨some "user", some "hi"⟩, ⟨some "assistant", some "ok"⟩]
          ⟨[⟨"s1", "conflict", 5⟩], [⟨"s1", "assistant", "Hey, can we chat?", 0⟩], []⟩).2 =
      Except.ok ([⟨some "user", some "hi"⟩, ⟨some "assistant", some "ok"⟩].map toMessage) :=
  replace_then_get_roundtrip "s1" [⟨some "user", some "hi"⟩, ⟨some "assistant", some "ok"⟩]
    ⟨[⟨"s1", "conflict", 5⟩], [⟨"s1", "assistant", "Hey, can we chat?", 0⟩], []⟩ rfl rfl

/-- C2 (amended): with an existing session, replaceTranscript accepts a
message list exactly when every message carries a string role in
the set (user, assistant) and string-typed content — the content may be
the empty string, non-emptiness is not checked; any rejected list yields
a 400 response and leaves the store unchanged. -/
theorem replaceTranscript_validation (sid : String) (ms : List RawMsg) (db : DB)
    (hex : sessionExists sid db = true) :
    ((replaceTranscript sid ms db).1 = Except.ok () ↔
      ∀ m ∈ ms, (m.role = some "user" ∨ m.role = some "assistant") ∧
        m.content.isSome = true) ∧
    ∀ e, (replaceTranscript sid ms db).1 = Except.error e →
      e.status = 400 ∧ (replaceTranscript sid ms db).2 = db := by
  cases hv : validateMessages ms with
  | none =>
    have h1 : (replaceTranscript sid ms db).1 = Except.ok () := by
      rw [replaceTranscript, hex, hv]; simp
    refine ⟨⟨fun _ => (validateMessages_none_iff ms).mp hv, fun _ => h1⟩, ?_⟩
    intro e he
    rw [h1] at he
    cases he
  | some e0 =>
    have h1 : (replaceTranscript sid ms db).1 = Except.error e0 := by
      rw [replaceTranscript, hex, hv]; simp
    have h2 : (replaceTranscript sid ms db).2 = db := by
      rw [replaceTranscript, hex, hv]; simp
    constructor
    · rw [h1]
      constructor
      · intro hcon; cases hcon
      · intro hall
        have hnone : validateMessages ms = none :=
          (validateMessages_none_iff ms).mpr hall
        rw [hv] at hnone
        cases hnone
    · intro e he
      rw [h1] at he
      cases he
      exact ⟨validateMessages_some_status ms e0 hv, h2⟩

/-- Witness for C2 (amended) at a concrete invalid role. -/
theorem replaceTranscript_validation_witness :
    ((replaceTranscript "s1" [⟨some "owner", some "x"⟩] dbOne).1 = Except.ok () ↔
      ∀ m ∈ [(⟨some "owner", some "x"⟩ : RawMsg)],
        (m.role = some "user" ∨ m.role = some "assistant") ∧
          m.content.isSome = true) ∧
    ∀ e, (replaceTranscript "s1" [⟨some "owner", some "x"⟩] dbOne).1 =
        Except.error e →
      e.status = 400 ∧
        (replaceTranscript "s1" [⟨some "owner", some "x"⟩] dbOne).2 = dbOne :=
  replaceTranscript_validation "s1" [⟨some "owner", some "x"⟩] dbOne rfl

/-- C2 counterexample: a message whose text is the empty string — which
lacks non-empty text — is accepted and stored by replaceTranscript
rather than rejected with InvalidInput. -/
theorem replaceTranscript_empty_text_accepted :
    (replaceTranscript "s1" [⟨some "user", some ""⟩] dbOne).1 = Except.ok () ∧
    getTranscript "s1" (replaceTranscript "s1" [⟨some "user", some ""⟩] dbOne).2 =
      Except.ok [⟨"user", ""⟩] :=
  ⟨rfl, rfl⟩

/-- C10: a successful replaceTranscript on session A leaves the sessions
table, the whole analyses table, and every other session's transcript
rows unchanged — the delete and the inserts are scoped to A. -/
theorem replaceTranscript_frame (sidA sidB : String) (ms : List RawMsg) (db : DB)
    (hok : (replaceTranscript sidA ms db).1 = Except.ok ())
    (hne : sidB ≠ sidA) :
    (replaceTranscript sidA ms db).2.analyses = db.analyses ∧
    (replaceTranscript sidA ms db).2.sessions = db.sessions ∧
    sessionMsgs sidB (replaceTranscript sidA ms db).2 = sessionMsgs sidB db := by
  have key : (replaceTranscript sidA ms db).2 = db ∨
      (replaceTranscript sidA ms db).2 =
        { db with
          transcript_messages :=
            db.transcript_messages.filter (fun t => !(t.session_id == sidA))
              ++ insertMessages sidA (ms.map toMessage) 0 } := by
    rw [replaceTranscript]
    cases hs : sessionExists sidA db with
    | false => simp
    | true =>
      cases hv : validateMessages ms with
      | none => simp
      | some e => simp
  rcases key with h | h
  · rw [h]
    exact ⟨rfl, rfl, rfl⟩
  · rw [h]
    refine ⟨rfl, rfl, ?_⟩
    rw [sessionMsgs, sessionMsgs]
    congr 1
    rw [List.filter_append, filter_insertMessages_ne sidA sidB _ 0 hne,
      filter_filter_ne sidA sidB _ hne, List.append_nil]

/-- Witness for C10 at two concrete sessions. -/
theorem replaceTranscript_frame_witness :
    (replaceTranscript "s1" [⟨some "user", some "hi"⟩] dbTwo).2.analyses =
      dbTwo.analyses ∧
    (replaceTranscript "s1" [⟨some "user", some "hi"⟩] dbTwo).2.sessions =
      dbTwo.sessions ∧
    sessionMsgs "s2" (replaceTranscript "s1" [⟨some "user", some "hi"⟩] dbTwo).2 =
      sessionMsgs "s2" dbTwo :=
  replaceTranscript_frame "s1" "s2" [⟨some "user", some "hi"⟩] dbTwo rfl
    (by decide)

lemma filter_map_update_of_none (sid : String) (res : AnalysisResult)
    (xs : List AnalysisRow)
    (h : xs.filter (fun r => r.session_id == sid) = []) :
    (xs.map (fun r =>
        if r.session_id == sid then { r with result := res } else r)).filter
      (fun r => r.session_id == sid) = [] := by
  induction xs with
  | nil => rfl
  | cons x l ih =>
    cases hb : (x.session_id == sid) with
    | true => simp [List.filter_cons, hb] at h
    | false =>
      simp only [List.filter_cons, hb, Bool.false_eq_true, if_false] at h
      simp only [List.map_cons, List.filter_cons, hb, Bool.false_eq_true, if_false]
      exact ih h

lemma filter_map_update (sid : String) (res : AnalysisResult)
    (rows : List AnalysisRow)
    (h : (rows.filter (fun r => r.session_id == sid)).length ≤ 1)
    (hany : rows.any (fun r => r.session_id == sid) = true) :
    (rows.map (fun r =>
        if r.session_id == sid then { r with result := res } else r)).filter
      (fun r => r.session_id == sid) = [⟨sid, res⟩] := by
  induction rows with
  | nil => simp at hany
  | cons x l ih =>
    cases hb : (x.session_id == sid) with
    | true =>
      have hx : x.session_id = sid := by simpa using hb
      have hl : l.filter (fun r => r.session_id == sid) = [] := by
        simp only [List.filter_cons, hb, if_true, List.length_cons] at h
        exact List.length_eq_zero.mp (Nat.le_zero.mp (Nat.le_of_succ_le_succ h))
      have hb2 : (({ x with result := res } : AnalysisRow).session_id == sid) =
          true := hb
      simp only [List.map_cons, List.filter_cons, hb, hb2, if_true]
      rw [filter_map_update_of_none sid res l hl]
      simp [hx]
    | false =>
      simp only [List.filter_cons, hb, Bool.false_eq_true, if_false] at h
      simp only [List.any_cons, hb, Bool.false_or] at hany
      simp only [List.map_cons, List.filter_cons, hb, Bool.false_eq_true, if_false]
      exact ih h hany

lemma filter_upsert (sid : String) (res : AnalysisResult)
    (rows : List AnalysisRow)
    (h : (rows.filter (fun r => r.session_id == sid)).length ≤ 1) :
    (upsertAnalysis sid res rows).filter (fun r => r.session_id == sid) =
      [⟨sid, res⟩] := by
  rw [upsertAnalysis]
  cases hany : rows.any (fun r => r.session_id == sid) with
  | false =>
    simp only [hany, Bool.false_eq_true, if_false]
    have hnil : rows.filter (fun r => r.session_id == sid) = [] := by
      rw [List.filter_eq_nil_iff]
      intro a ha
      have := List.any_eq_false.mp hany a ha
      simpa using this
    rw [List.filter_append, hnil, List.nil_append]
    simp [List.filter_cons]
  | true =>
    simp only [hany, if_true]
    exact filter_map_update sid res rows h hany

/-- C3: two sequential completed analysis runs for the same session leave
exactly one analyses row for that session, holding the later run's
result; the upsert never duplicates the row. -/
theorem analyze_twice_single_row (parse : String → Option String)
    (model₁ model₂ : List Message → Except Unit (Option String))
    (sid : String) (db : DB) (t₁ t₂ : Option String)
    (hcount : (db.analyses.filter (fun r => r.session_id == sid)).length ≤ 1)
    (h1 : model₁ ((sessionMsgs sid db).map rowToMessage) = Except.ok t₁)
    (h2 : model₂ ((sessionMsgs sid (runAnalysis parse model₁ sid db)).map
      rowToMessage) = Except.ok t₂) :
    ((runAnalysis parse model₂ sid (runAnalysis parse model₁ sid db)).analyses.filter
      (fun r => r.session_id == sid)) = [⟨sid, computeAnalysis parse t₂⟩] := by
  have e1 : runAnalysis parse model₁ sid db =
      { db with
        analyses := upsertAnalysis sid (computeAnalysis parse t₁) db.analyses } := by
    rw [runAnalysis, h1]
  rw [e1] at h2 ⊢
  have hc1 : ((upsertAnalysis sid (computeAnalysis parse t₁) db.analyses).filter
      (fun r => r.session_id == sid)).length ≤ 1 := by
    rw [filter_upsert sid _ db.analyses hcount]
    simp
  rw [runAnalysis, h2]
  exact filter_upsert sid (computeAnalysis parse t₂)
    (upsertAnalysis sid (computeAnalysis parse t₁) db.analyses) hc1

/-- Witness for C3 with two concrete completed runs. -/
theorem analyze_twice_single_row_witness :
    ((runAnalysis (fun _ => none) (fun _ => Except.ok (some "B")) "s1"
        (runAnalysis (fun _ => none) (fun _ => Except.ok (some "A")) "s1"
          dbOne)).analyses.filter (fun r => r.session_id == "s1")) =
      [⟨"s1", computeAnalysis (fun _ => none) (some "B")⟩] :=
  analyze_twice_single_row (fun _ => none) (fun _ => Except.ok (some "A"))
    (fun _ => Except.ok (some "B")) "s1" dbOne (some "A") (some "B")
    (by decide) rfl rfl

/-- C4 (amended): a completed run whose response fails to parse (because
the text is absent, empty, or unparseable) still persists exactly one
analyses row for the session with a fallback record: its distinguished
rawAnalysis field holds the raw unparsed text when the response text is
non-empty, and the placeholder string when the text is empty or absent. -/
theorem analysis_parse_failure_persists (parse : String → Option String)
    (model : List Message → Except Unit (Option String))
    (sid : String) (db : DB) (respText : Option String)
    (hcount : (db.analyses.filter (fun r => r.session_id == sid)).length ≤ 1)
    (hm : model ((sessionMsgs sid db).map rowToMessage) = Except.ok respText)
    (hfail : ∀ t, respText = some t → t ≠ "" → parse t = none) :
    ((runAnalysis parse model sid db).analyses.filter
      (fun r => r.session_id == sid)) =
        [⟨sid, AnalysisResult.fallback (fallbackText respText)⟩] ∧
    ∀ t, respText = some t → t ≠ "" → fallbackText respText = t := by
  have hcomp : computeAnalysis parse respText =
      AnalysisResult.fallback (fallbackText respText) := by
    cases respText with
    | none => rfl
    | some t =>
      by_cases ht : t = ""
      · subst ht; rfl
      · rw [computeAnalysis, fallbackText, hfail t rfl ht]
        rw [show ((t == "") : Bool) = false by simpa using ht]
        simp
  constructor
  · have hrun : runAnalysis parse model sid db =
        { db with
          analyses :=
            upsertAnalysis sid (computeAnalysis parse respText) db.analyses } := by
      rw [runAnalysis, hm]
    rw [hrun, hcomp]
    exact filter_upsert sid _ db.analyses hcount
  · intro t ht hne
    subst ht
    rw [fallbackText, show ((t == "") : Bool) = false by simpa using hne]
    simp

/-- Witness for C4 (amended) at a concrete unparseable response. -/
theorem analysis_parse_failure_persists_witness :
    ((runAnalysis (fun _ => none) (fun _ => Except.ok (some "oops")) "s1"
        dbOne).analyses.filter (fun r => r.session_id == "s1")) =
      [⟨"s1", AnalysisResult.fallback (fallbackText (some "oops"))⟩] ∧
    ∀ t, (some "oops" : Option String) = some t → t ≠ "" →
      fallbackText (some "oops") = t :=
  analysis_parse_failure_persists (fun _ => none)
    (fun _ => Except.ok (some "oops")) "s1" dbOne (some "oops")
    (by decide) rfl (fun t _ _ => rfl)

/-- C4 counterexample: with an empty model response text the persisted
record's distinguished field holds the placeholder string, which differs
from the raw (empty) unparsed text. -/
theorem analysis_empty_response_placeholder :
    (runAnalysis (fun _ => none) (fun _ => Except.ok (some "")) "s1"
        dbOne).analyses =
      [⟨"s1", AnalysisResult.fallback "Analysis failed to parse"⟩] ∧
    "Analysis failed to parse" ≠ "" :=
  ⟨rfl, by decide⟩

/-- C7: for a valid scenario id present in the catalog, createSession
returns a transcript whose sole message is the scenario's opening line,
and in the same atomic state update inserts the session row together
with the position-0 opening message with role assistant. -/
theorem createSession_inserts_opening (catalog : String → Option Scenario)
    (freshId : String) (now : Nat) (scenarioId : String) (db : DB) (sc : Scenario)
    (hval : validScenarioId scenarioId = true)
    (hcat : catalog scenarioId = some sc) :
    (createSession catalog freshId now scenarioId db).1 =
      Except.ok ⟨freshId, sc, [⟨"assistant", sc.initialMessage⟩]⟩ ∧
    (createSession catalog freshId now scenarioId db).2 =
      { db with
        sessions := db.sessions ++ [⟨freshId, scenarioId, now⟩],
        transcript_messages :=
          db.transcript_messages ++ [⟨freshId, "assistant", sc.initialMessage, 0⟩] } := by
  constructor
  · rw [createSession, hval, hcat]
    simp
  · rw [createSession, hval, hcat]
    simp

/-- Witness for C7 at a concrete catalog and fresh id. -/
theorem createSession_inserts_opening_witness :
    (createSession catOne "u1" 3 "conflict" ⟨[], [], []⟩).1 =
      Except.ok ⟨"u1", ⟨"Hey, can we chat?"⟩,
        [⟨"assistant", "Hey, can we chat?"⟩]⟩ ∧
    (createSession catOne "u1" 3 "conflict" ⟨[], [], []⟩).2 =
      { (⟨[], [], []⟩ : DB) with
        sessions := ([] : List SessionRow) ++ [⟨"u1", "conflict", 3⟩],
        transcript_messages :=
          ([] : List TMsg) ++ [⟨"u1", "assistant", "Hey, can we chat?", 0⟩] } :=
  createSession_inserts_opening catOne "u1" 3 "conflict" ⟨[], [], []⟩
    ⟨"Hey, can we chat?"⟩ rfl rfl

/-- C5 (amended): the scenario's opening line is inserted at position 0
atomically with session creation, so immediately after createSession the
transcript's first (and only) message is the opening line; a subsequent
replaceTranscript rewrites the whole transcript, so the opening line
stays first only as long as saved transcripts keep it there. -/
theorem opening_line_at_creation (catalog : String → Option Scenario)
    (freshId : String) (now : Nat) (scenarioId : String) (db : DB) (sc : Scenario)
    (hval : validScenarioId scenarioId = true)
    (hcat : catalog scenarioId = some sc)
    (hfresh : ∀ t ∈ db.transcript_messages, t.session_id ≠ freshId) :
    getTranscript freshId (createSession catalog freshId now scenarioId db).2 =
      Except.ok [⟨"assistant", sc.initialMessage⟩] := by
  have hstate : (createSession catalog freshId now scenarioId db).2 =
      { db with
        sessions := db.sessions ++ [⟨freshId, scenarioId, now⟩],
        transcript_messages :=
          db.transcript_messages ++ [⟨freshId, "assistant", sc.initialMessage, 0⟩] } := by
    rw [createSession, hval, hcat]
    simp
  have hfind : ((db.sessions ++ [(⟨freshId, scenarioId, now⟩ : SessionRow)]).find?
      (fun s => s.id == freshId)).isSome = true := by
    rw [List.find?_isSome]
    exact ⟨⟨freshId, scenarioId, now⟩,
      List.mem_append_right _ (List.mem_singleton.mpr rfl), by simp⟩
  obtain ⟨srow, hsrow⟩ := Option.isSome_iff_exists.mp hfind
  have hmsgs : sessionMsgs freshId
      { db with
        sessions := db.sessions ++ [⟨freshId, scenarioId, now⟩],
        transcript_messages :=
          db.transcript_messages ++ [⟨freshId, "assistant", sc.initialMessage, 0⟩] } =
      [⟨freshId, "assistant", sc.initialMessage, 0⟩] := by
    rw [sessionMsgs]
    have h1 : db.transcript_messages.filter (fun t => t.session_id == freshId) =
        [] := by
      rw [List.filter_eq_nil_iff]
      intro a ha
      simp [hfresh a ha]
    rw [show ({ db with
        sessions := db.sessions ++ [⟨freshId, scenarioId, now⟩],
        transcript_messages :=
          db.transcript_messages ++ [⟨freshId, "assistant", sc.initialMessage, 0⟩] } :
          DB).transcript_messages =
      db.transcript_messages ++ [⟨freshId, "assistant", sc.initialMessage, 0⟩]
      from rfl]
    rw [List.filter_append, h1, List.nil_append]
    simp [List.filter_cons, sortByPos, insertByPos]
  rw [hstate, getTranscript,
    getSession_eq freshId
      { db with
        sessions := db.sessions ++ [⟨freshId, scenarioId, now⟩],
        transcript_messages :=
          db.transcript_messages ++ [⟨freshId, "assistant", sc.initialMessage, 0⟩] }
      srow hsrow]
  rw [hmsgs]
  simp [rowToMessage]

/-- Witness for C5 (amended) at a concrete catalog on an empty store. -/
theorem opening_line_at_creation_witness :
    getTranscript "u1" (createSession catOne "u1" 3 "conflict" ⟨[], [], []⟩).2 =
      Except.ok [⟨"assistant", "Hey, can we chat?"⟩] :=
  opening_line_at_creation catOne "u1" 3 "conflict" ⟨[], [], []⟩
    ⟨"Hey, can we chat?"⟩ rfl rfl (fun t ht => absurd ht (List.not_mem_nil t))

/-- C5 counterexample: after creating a session whose opening line is
"Hey, can we chat?", a replaceTranscript whose list does not start with
that line succeeds, and the transcript's first message is no longer the
opening line — it is not preserved under every subsequent operation. -/
theorem opening_line_not_preserved :
    getTranscript "u1"
        (replaceTranscript "u1" [⟨some "user", some "hi"⟩]
          (createSession catOne "u1" 3 "conflict" ⟨[], [], []⟩).2).2 =
      Except.ok [⟨"user", "hi"⟩] ∧
    ("hi" : String) ≠ "Hey, can we chat?" :=
  ⟨rfl, by decide⟩

/-- C6: createSession with a scenario id containing a character outside
the allow-list fails with a 400 and writes nothing; with a well-formed
id absent from the catalog it fails with a 404 and writes nothing. -/
theorem createSession_rejects (catalog : String → Option Scenario)
    (freshId : String) (now : Nat) (scenarioId : String) (db : DB) :
    ((∃ c ∈ scenarioId.toList, isScenarioIdChar c = false) →
      createSession catalog freshId now scenarioId db =
        (Except.error ⟨400, "Invalid scenario ID"⟩, db)) ∧
    (validScenarioId scenarioId = true → catalog scenarioId = none →
      createSession catalog freshId now scenarioId db =
        (Except.error ⟨404, "Scenario not found"⟩, db)) := by
  constructor
  · rintro ⟨c, hc, hbad⟩
    have hall : scenarioId.toList.all isScenarioIdChar = false := by
      rw [Bool.eq_false_iff]
      intro hAll
      have hct := List.all_eq_true.mp hAll c hc
      rw [hbad] at hct
      cases hct
    have hv : validScenarioId scenarioId = false := by
      rw [validScenarioId, hall, Bool.and_false]
    rw [createSession, hv]
    simp
  · intro hv hcat
    rw [createSession, hv, hcat]
    simp

/-- Witness for C6 at a malformed id and at a missing scenario. -/
theorem createSession_rejects_witness :
    createSession catOne "u1" 3 "bad!id" ⟨[], [], []⟩ =
      (Except.error ⟨400, "Invalid scenario ID"⟩, ⟨[], [], []⟩) ∧
    createSession catOne "u1" 3 "missing" ⟨[], [], []⟩ =
      (Except.error ⟨404, "Scenario not found"⟩, ⟨[], [], []⟩) :=
  ⟨(createSession_rejects catOne "u1" 3 "bad!id" ⟨[], [], []⟩).1
      ⟨'!', by decide, by decide⟩,
   (createSession_rejects catOne "u1" 3 "missing" ⟨[], [], []⟩).2 rfl rfl⟩

/-- C8: an analyze request for an unknown session fails with 404 and
changes nothing; for a known session the 202 acknowledgement "analyzing"
is fixed regardless of the background outcome, and when the background
model call fails the store is unchanged — no analyses row is written,
no retry happens, and the already-sent acknowledgement is unaffected. -/
theorem analyze_endpoint_spec (parse : String → Option String)
    (model : List Message → Except Unit (Option String))
    (sid : String) (db : DB) :
    (sessionExists sid db = false →
      analyzeSession parse model sid db =
        (Except.error ⟨404, "Session not found"⟩, db)) ∧
    (sessionExists sid db = true →
      (analyzeSession parse model sid db).1 = Except.ok "analyzing") ∧
    (sessionExists sid db = true →
      model ((sessionMsgs sid db).map rowToMessage) = Except.error () →
      (analyzeSession parse model sid db).2 = db) := by
  refine ⟨?_, ?_, ?_⟩
  · intro h
    rw [analyzeSession, h]
    simp
  · intro h
    rw [analyzeSession, h]
    simp
  · intro h hm
    rw [analyzeSession, h, runAnalysis, hm]
    simp

/-- Witness for C8: a failing background model call on a known session,
and an unknown session. -/
theorem analyze_endpoint_spec_witness :
    (analyzeSession (fun _ => none) (fun _ => Except.error ()) "s1" dbOne).1 =
      Except.ok "analyzing" ∧
    (analyzeSession (fun _ => none) (fun _ => Except.error ()) "s1" dbOne).2 =
      dbOne ∧
    analyzeSession (fun _ => none) (fun _ => Except.error ()) "nope" dbOne =
      (Except.error ⟨404, "Session not found"⟩, dbOne) :=
  ⟨(analyze_endpoint_spec (fun _ => none) (fun _ => Except.error ()) "s1"
      dbOne).2.1 rfl,
   (analyze_endpoint_spec (fun _ => none) (fun _ => Except.error ()) "s1"
      dbOne).2.2 rfl rfl,
   (analyze_endpoint_spec (fun _ => none) (fun _ => Except.error ()) "nope"
      dbOne).1 rfl⟩

/-- C9 (amended): the admin session listing is guarded by the shared
bearer-token check — 503 when no admin token is configured (unset or
empty) and 401 when the stripped authorization header is absent or does
not equal the configured token — but the per-session view is registered
without the middleware: its result never depends on the token
configuration or the authorization header. -/
theorem admin_guard_listing_only (db : DB) (sid : String)
    (hdr : Option String) (tok h : String)
    (htok : tok ≠ "") (hbad : stripBearer h ≠ tok) :
    adminSessions none hdr db =
      Except.error ⟨503, "Admin access not configured"⟩ ∧
    adminSessions (some "") hdr db =
      Except.error ⟨503, "Admin access not configured"⟩ ∧
    adminSessions (some tok) none db = Except.error ⟨401, "Unauthorized"⟩ ∧
    adminSessions (some tok) (some h) db = Except.error ⟨401, "Unauthorized"⟩ ∧
    ∀ tokOpt hdrOpt, getSessionRoute tokOpt hdrOpt sid db = getSession sid db := by
  have hb : (tok == "") = false := by simpa using htok
  refine ⟨rfl, rfl, ?_, ?_, fun _ _ => rfl⟩
  · simp only [adminSessions, requireAdminAuth, hb, Bool.false_eq_true, if_false]
  · have hb2 : (stripBearer h == tok) = false := by simpa using hbad
    simp only [adminSessions, requireAdminAuth, hb, hb2, Bool.false_eq_true,
      if_false]

/-- Witness for C9 (amended) at a concrete token and wrong header. -/
theorem admin_guard_listing_only_witness :
    adminSessions none (some "Bearer nope") dbOne =
      Except.error ⟨503, "Admin access not configured"⟩ ∧
    adminSessions (some "") (some "Bearer nope") dbOne =
      Except.error ⟨503, "Admin access not configured"⟩ ∧
    adminSessions (some "secret") none dbOne =
      Except.error ⟨401, "Unauthorized"⟩ ∧
    adminSessions (some "secret") (some "Bearer nope") dbOne =
      Except.error ⟨401, "Unauthorized"⟩ ∧
    ∀ tokOpt hdrOpt, getSessionRoute tokOpt hdrOpt "s1" dbOne =
      getSession "s1" dbOne :=
  admin_guard_listing_only dbOne "s1" (some "Bearer nope") "secret" "Bearer nope"
    (by decide) (by decide)

/-- C9 counterexample: with no admin token configured, a request to the
per-session view with no credentials is served with the session data
instead of failing with ServiceUnavailable, while the shared guard —
which the claim says protects this view — would have rejected it. -/
theorem per_session_view_unguarded :
    getSessionRoute none none "s1" dbOne =
      Except.ok ⟨[⟨"assistant", "Hey, can we chat?"⟩], none, 5⟩ ∧
    requireAdminAuth none none = some ⟨503, "Admin access not configured"⟩ :=
  ⟨rfl, rfl⟩

end VibesOnly
